import Mathlib

/-!
Shallow embedding of the devconnector post and profile mutation routes
(`routes/api/posts.js`, `routes/api/profile.js`) and proofs about the
ownership, like/comment and experience operations they implement.

Documents are modelled as Lean structures, the document store as a list of
documents, and each Express handler (after the express-validator glue, which
the design treats as an external collaborator) as a pure function from the
store and the request parameters to the new store paired with the response.
JavaScript array operations that the handlers rely on (`splice` with a
possibly negative index, `indexOf` returning -1) are modelled exactly.
-/

set_option autoImplicit false

namespace DevConnector

/-- JavaScript `Array.prototype.splice(start, 1)`: a negative `start` counts
from the end (clamped at 0), a too-large `start` removes nothing. -/
def spliceOne {α : Type} (xs : List α) (i : Int) : List α :=
  let len : Int := xs.length
  let start : Nat := if i < 0 then (max (len + i) 0).toNat else min i.toNat xs.length
  xs.take start ++ xs.drop (start + 1)

/-- JavaScript `Array.prototype.indexOf`: index of the first occurrence, or -1. -/
def jsIndexOf (xs : List String) (x : String) : Int :=
  match xs with
  | [] => -1
  | y :: ys =>
    if y == x then 0
    else
      let r := jsIndexOf ys x
      if r < 0 then -1 else r + 1

/-- The external document store casts route ids to ObjectIds and raises an
error with `kind = ObjectId` when the id is malformed.  Well-formedness of an
ObjectId string is modelled by its 24-character length. -/
def isValidObjectId (s : String) : Bool := s.length == 24

/-- One entry of a post's `likes` array: `{ user: <id> }`. -/
structure LikeEntry where
  user : String
deriving DecidableEq, Repr

/-- One entry of a post's `comments` array. -/
structure CommentEntry where
  id : String
  text : String
  name : String
  avatar : String
  user : String
deriving DecidableEq, Repr

/-- A post document.  `user` is the owning user's id (compared via its
canonical string form, as the handlers do with `toString()`). -/
structure Post where
  id : String
  text : String
  name : String
  avatar : String
  user : String
  likes : List LikeEntry
  comments : List CommentEntry
deriving DecidableEq, Repr

/-- The user-directory record read at post/comment creation time. -/
structure UserRec where
  id : String
  name : String
  avatar : String
deriving DecidableEq, Repr

/-- An experience entry of a profile.  The JavaScript fields `from` and `to`
are Lean keywords and are rendered `fromDate` / `toDate`. -/
structure Experience where
  id : String
  title : String
  company : String
  location : String
  fromDate : String
  toDate : String
  current : Bool
  description : String
deriving DecidableEq, Repr

/-- The `social` sub-mapping of a profile; every platform key is optional. -/
structure Social where
  youtube : Option String
  facebook : Option String
  twitter : Option String
  instagram : Option String
  linkedin : Option String
deriving DecidableEq, Repr

/-- A profile document, owned 1:1 by a user. -/
structure Profile where
  user : String
  company : Option String
  website : Option String
  location : Option String
  bio : Option String
  status : Option String
  githubusername : Option String
  skills : List String
  social : Social
  experience : List Experience
deriving DecidableEq, Repr

/-- The caller-visible outcome of a handler: the JSON payload of a success,
or the error status it answers with (400 / 401 / 404 / 500). -/
inductive Resp where
  | okLikes (likes : List LikeEntry)
  | okComments (comments : List CommentEntry)
  | okPost (post : Post)
  | okProfile (profile : Profile)
  | okMsg (msg : String)
  | badRequest (msg : String)
  | notFound (msg : String)
  | unauthorized (msg : String)
  | serverError
deriving DecidableEq, Repr

/-- Does the response carry HTTP status 404 (`NotFound`)? -/
def Resp.isNotFound : Resp → Bool
  | .notFound _ => true
  | _ => false

/-- `Post.findById`: raises a cast error on a malformed id, otherwise resolves
to the first document with that id, or to null (`none`). -/
def findPostById (store : List Post) (pid : String) : Except Unit (Option Post) :=
  if isValidObjectId pid then .ok (store.find? (fun p => p.id == pid)) else .error ()

/-- `User.findById` for the user directory. -/
def findUserById (users : List UserRec) (uid : String) : Except Unit (Option UserRec) :=
  if isValidObjectId uid then .ok (users.find? (fun u => u.id == uid)) else .error ()

/-- `post.save()`: persist the loaded document, i.e. replace the first
document carrying its id. -/
def replaceFirstPost (store : List Post) (pid : String) (p : Post) : List Post :=
  match store with
  | [] => []
  | q :: qs => if q.id == pid then p :: qs else q :: replaceFirstPost qs pid p

/-- `post.remove()`: delete the first document carrying the id. -/
def removeFirstPost (store : List Post) (pid : String) : List Post :=
  match store with
  | [] => []
  | q :: qs => if q.id == pid then qs else q :: removeFirstPost qs pid

/-- `DELETE api/posts/:id`: 404 when absent, ownership check against the
post's author, remove on success; the catch branch maps a cast error
(`err.kind = ObjectId`) to 404. -/
def deletePost (store : List Post) (pid uid : String) : List Post × Resp :=
  match findPostById store pid with
  | .error _ => (store, .notFound "Post not found")
  | .ok none => (store, .notFound "Post not found")
  | .ok (some post) =>
    if post.user != uid then (store, .unauthorized "User not authorized")
    else (removeFirstPost store pid, .okMsg "Post removed")

/-- `PUT api/posts/like/:id`.  The handler has no null check after
`findById`, so a missing post raises a TypeError on `post.likes` and the
catch branch (which has no ObjectId case) answers 500; a malformed id
likewise lands in the catch branch and answers 500. -/
def likePost (store : List Post) (pid uid : String) : List Post × Resp :=
  match findPostById store pid with
  | .error _ => (store, .serverError)
  | .ok none => (store, .serverError)
  | .ok (some post) =>
    if (post.likes.filter (fun l => l.user == uid)).length > 0 then
      (store, .badRequest "Post already liked")
    else
      let post2 : Post := { post with likes := { user := uid } :: post.likes }
      (replaceFirstPost store pid post2, .okLikes post2.likes)

/-- `PUT api/posts/unlike/:id`.  Same missing null check as `likePost`;
removal locates the entry by the author's id via `indexOf` and `splice`. -/
def unlikePost (store : List Post) (pid uid : String) : List Post × Resp :=
  match findPostById store pid with
  | .error _ => (store, .serverError)
  | .ok none => (store, .serverError)
  | .ok (some post) =>
    if (post.likes.filter (fun l => l.user == uid)).length == 0 then
      (store, .badRequest "Post has not yet been liked")
    else
      let removeIndex := jsIndexOf (post.likes.map (fun l => l.user)) uid
      let post2 : Post := { post with likes := spliceOne post.likes removeIndex }
      (replaceFirstPost store pid post2, .okLikes post2.likes)

/-- `POST api/posts/comment/:id` (after the validation glue).  `cid` is the
subdocument id mongoose generates at save time.  A missing user or post
raises on property access and the catch branch answers 500. -/
def addComment (users : List UserRec) (store : List Post) (pid uid text cid : String) :
    List Post × Resp :=
  match findUserById users uid with
  | .error _ => (store, .serverError)
  | .ok none => (store, .serverError)
  | .ok (some user) =>
    match findPostById store pid with
    | .error _ => (store, .serverError)
    | .ok none => (store, .serverError)
    | .ok (some post) =>
      let newComment : CommentEntry :=
        { id := cid, text := text, name := user.name, avatar := user.avatar, user := uid }
      let post2 : Post := { post with comments := newComment :: post.comments }
      (replaceFirstPost store pid post2, .okComments post2.comments)

/-- `DELETE api/posts/comment/:id/:comment_id`.  The comment is located by
its id and the ownership check compares the comment's author, but the remove
index is then computed from the comment AUTHORS (`map(c.user).indexOf(uid)`),
not from the comment ids — transcribed exactly as the source has it.  No null
check after `findById`, so a missing post answers 500. -/
def removeComment (store : List Post) (pid cid uid : String) : List Post × Resp :=
  match findPostById store pid with
  | .error _ => (store, .serverError)
  | .ok none => (store, .serverError)
  | .ok (some post) =>
    match post.comments.find? (fun c => c.id == cid) with
    | none => (store, .notFound "Comment does not exist")
    | some comment =>
      if comment.user != uid then (store, .unauthorized "User not authorized")
      else
        let removeIndex := jsIndexOf (post.comments.map (fun c => c.user)) uid
        let post2 : Post := { post with comments := spliceOne post.comments removeIndex }
        (replaceFirstPost store pid post2, .okComments post2.comments)

/-- `Profile.findOne({ user })`: first profile owned by the identity; the id
comes from the verified token, so no cast error is modelled here. -/
def findProfileByUser (store : List Profile) (uid : String) : Option Profile :=
  store.find? (fun p => p.user == uid)

/-- `profile.save()` / `findOneAndUpdate`: replace the first profile owned by
the identity with the updated document. -/
def saveProfile (store : List Profile) (uid : String) (p : Profile) : List Profile :=
  match store with
  | [] => []
  | q :: qs => if q.user == uid then p :: qs else q :: saveProfile qs uid p

/-- JavaScript truthiness of an optional request string: absent and the empty
string are falsy. -/
def truthy : Option String → Bool
  | none => false
  | some s => !s.isEmpty

/-- `skills.split(',').map(skill => skill.trim())`. -/
def parseSkills (s : String) : List String := (s.splitOn ",").map String.trim

/-- The body of `POST api/profile` after destructuring: each field is either
absent (`none`) or the supplied string. -/
structure UpsertReq where
  company : Option String
  website : Option String
  location : Option String
  bio : Option String
  status : Option String
  githubusername : Option String
  skills : Option String
  youtube : Option String
  facebook : Option String
  twitter : Option String
  instagram : Option String
  linkedin : Option String
deriving DecidableEq, Repr

/-- `if (field) profileFields.field = field`: keep only a truthy value. -/
def keepTruthy (v : Option String) : Option String := if truthy v then v else none

/-- The `social` object is initialised empty and receives only the truthy
platform keys of the request. -/
def buildSocial (r : UpsertReq) : Social :=
  { youtube := keepTruthy r.youtube
    facebook := keepTruthy r.facebook
    twitter := keepTruthy r.twitter
    instagram := keepTruthy r.instagram
    linkedin := keepTruthy r.linkedin }

/-- `findOneAndUpdate({ user }, { $set: profileFields })`: every key present
in `profileFields` is overwritten, the rest keep their stored value; `social`
is always a key of `profileFields`, so it is always replaced wholesale. -/
def applyUpsert (p : Profile) (r : UpsertReq) (uid : String) : Profile :=
  { p with
    user := uid
    company := if truthy r.company then r.company else p.company
    website := if truthy r.website then r.website else p.website
    location := if truthy r.location then r.location else p.location
    bio := if truthy r.bio then r.bio else p.bio
    status := if truthy r.status then r.status else p.status
    githubusername := if truthy r.githubusername then r.githubusername else p.githubusername
    skills := if truthy r.skills then parseSkills (r.skills.getD "") else p.skills
    social := buildSocial r }

/-- `new Profile(profileFields)`: unsupplied string fields stay unset and the
array fields take their mongoose defaults. -/
def createProfile (r : UpsertReq) (uid : String) : Profile :=
  { user := uid
    company := keepTruthy r.company
    website := keepTruthy r.website
    location := keepTruthy r.location
    bio := keepTruthy r.bio
    status := keepTruthy r.status
    githubusername := keepTruthy r.githubusername
    skills := if truthy r.skills then parseSkills (r.skills.getD "") else []
    social := buildSocial r
    experience := [] }

/-- `POST api/profile` (after the validation glue): update the existing
profile with `$set`, or create a fresh one. -/
def upsertProfile (store : List Profile) (uid : String) (r : UpsertReq) :
    List Profile × Resp :=
  match findProfileByUser store uid with
  | some p =>
    (saveProfile store uid (applyUpsert p r uid), .okProfile (applyUpsert p r uid))
  | none => (store ++ [createProfile r uid], .okProfile (createProfile r uid))

/-- `PUT api/profile/experience` (after the validation glue); `e` carries the
subdocument id mongoose generates at save time.  No null check after
`findOne`, so a missing profile raises on `profile.experience` and the catch
branch answers 500. -/
def addExperience (store : List Profile) (uid : String) (e : Experience) :
    List Profile × Resp :=
  match findProfileByUser store uid with
  | none => (store, .serverError)
  | some p =>
    let p2 : Profile := { p with experience := e :: p.experience }
    (saveProfile store uid p2, .okProfile p2)

/-- `DELETE api/profile/experience/:exp_id`: locate the entry index by id
(`indexOf`, -1 when absent) and `splice(removeIndex, 1)`.  No null check
after `findOne`, so a missing profile answers 500. -/
def removeExperience (store : List Profile) (uid expId : String) : List Profile × Resp :=
  match findProfileByUser store uid with
  | none => (store, .serverError)
  | some p =>
    let removeIndex := jsIndexOf (p.experience.map (fun it => it.id)) expId
    let p2 : Profile := { p with experience := spliceOne p.experience removeIndex }
    (saveProfile store uid p2, .okProfile p2)

/-- The documented invariant of the like state machine: no post's `likes`
array holds two entries with the same user reference. -/
def likesInvariant (store : List Post) : Prop :=
  ∀ p ∈ store, (p.likes.map LikeEntry.user).Nodup

/-- A second `like` by the identity whose first `like` succeeded is answered
with the AlreadyLiked conflict and mutates nothing. -/
def secondLikeConflict (store : List Post) (pid uid : String) : Prop :=
  ∀ s2 ls, likePost store pid uid = (s2, Resp.okLikes ls) →
    likePost s2 pid uid = (s2, Resp.badRequest "Post already liked")

/-- The supplied (truthy) field sets of two upsert requests are disjoint. -/
def disjointFields (r1 r2 : UpsertReq) : Prop :=
  (truthy r1.company = true → truthy r2.company = false)
  ∧ (truthy r1.website = true → truthy r2.website = false)
  ∧ (truthy r1.location = true → truthy r2.location = false)
  ∧ (truthy r1.bio = true → truthy r2.bio = false)
  ∧ (truthy r1.status = true → truthy r2.status = false)
  ∧ (truthy r1.githubusername = true → truthy r2.githubusername = false)
  ∧ (truthy r1.skills = true → truthy r2.skills = false)
  ∧ (truthy r1.youtube = true → truthy r2.youtube = false)
  ∧ (truthy r1.facebook = true → truthy r2.facebook = false)
  ∧ (truthy r1.twitter = true → truthy r2.twitter = false)
  ∧ (truthy r1.instagram = true → truthy r2.instagram = false)
  ∧ (truthy r1.linkedin = true → truthy r2.linkedin = false)

/-! ### Concrete fixtures for the scenarios settled below -/

/-- A post carrying two comments, both authored by its owner `u1`. -/
def postTwoComments : Post :=
  { id := "aaaaaaaaaaaaaaaaaaaaaaaa", text := "hello", name := "Al", avatar := "av",
    user := "u1", likes := [],
    comments :=
      [{ id := "c1", text := "first", name := "Al", avatar := "av", user := "u1" },
       { id := "c2", text := "second", name := "Al", avatar := "av", user := "u1" }] }

/-- A post owned by `u1` with one like and one comment, both by `u1`. -/
def postOwned : Post :=
  { id := "bbbbbbbbbbbbbbbbbbbbbbbb", text := "hi", name := "Al", avatar := "av",
    user := "u1", likes := [{ user := "u1" }],
    comments := [{ id := "c1", text := "yo", name := "Al", avatar := "av", user := "u1" }] }

/-- A post owned by `u1` liked once by `u3`. -/
def postPlain : Post :=
  { id := "cccccccccccccccccccccccc", text := "hi", name := "Al", avatar := "av",
    user := "u1", likes := [{ user := "u3" }], comments := [] }

/-- First stored experience entry. -/
def expOne : Experience :=
  { id := "e1", title := "Dev", company := "Acme", location := "X",
    fromDate := "2020-01-01", toDate := "2021-01-01", current := false, description := "d1" }

/-- Second (last) stored experience entry. -/
def expTwo : Experience :=
  { id := "e2", title := "Lead", company := "Acme", location := "X",
    fromDate := "2021-02-01", toDate := "2022-01-01", current := false, description := "d2" }

/-- A freshly generated experience entry. -/
def expNew : Experience :=
  { id := "e3", title := "CTO", company := "Acme", location := "X",
    fromDate := "2022-02-01", toDate := "", current := true, description := "d3" }

/-- A profile of `u1` with two experience entries. -/
def profBase : Profile :=
  { user := "u1", company := none, website := none, location := none,
    bio := none, status := some "dev", githubusername := none, skills := ["js"],
    social := { youtube := none, facebook := none, twitter := none, instagram := none,
                linkedin := none },
    experience := [expOne, expTwo] }

/-- The all-absent request body. -/
def reqEmpty : UpsertReq :=
  { company := none, website := none, location := none, bio := none,
    status := none, githubusername := none, skills := none, youtube := none,
    facebook := none, twitter := none, instagram := none, linkedin := none }

/-- First call's field set: company and a youtube link. -/
def reqOne : UpsertReq := { reqEmpty with company := some "Acme", youtube := some "yt.example" }

/-- Second call's field set, disjoint from the first: website and twitter. -/
def reqTwo : UpsertReq := { reqEmpty with website := some "w.example", twitter := some "tw.example" }

/-! ### Helper lemmas about the JavaScript array primitives -/

theorem take_append_drop_succ_sublist {α : Type} (xs : List α) (s : Nat) :
    (xs.take s ++ xs.drop (s + 1)).Sublist xs := by
  conv_rhs => rw [← List.take_append_drop s xs]
  refine List.Sublist.append_left ?_ _
  rw [← List.drop_drop, List.drop_one]
  exact List.tail_sublist _

theorem spliceOne_sublist {α : Type} (xs : List α) (i : Int) :
    (spliceOne xs i).Sublist xs :=
  take_append_drop_succ_sublist xs _

theorem spliceOne_neg_one {α : Type} (xs : List α) : spliceOne xs (-1) = xs.dropLast := by
  cases xs with
  | nil => rfl
  | cons x l =>
    have hmax : max (((x :: l).length : Int) + (-1)) 0 = (l.length : Int) := by
      simp [List.length_cons]
    have hs : spliceOne (x :: l) (-1) =
        (x :: l).take l.length ++ (x :: l).drop (l.length + 1) := by
      simp [spliceOne, hmax]
    have hdrop : (x :: l).drop (l.length + 1) = [] :=
      List.drop_eq_nil_of_le (by simp)
    rw [hs, hdrop, List.append_nil, List.dropLast_eq_take]
    simp

theorem spliceOne_zero {α : Type} (x : α) (l : List α) : spliceOne (x :: l) 0 = l := by
  simp [spliceOne]

theorem jsIndexOf_cons_self (x : String) (ys : List String) :
    jsIndexOf (x :: ys) x = 0 := by
  simp [jsIndexOf]

theorem jsIndexOf_eq_neg_one {xs : List String} {x : String}
    (h : ∀ y ∈ xs, (y == x) = false) : jsIndexOf xs x = -1 := by
  induction xs with
  | nil => rfl
  | cons y ys ih =>
    have hy := h y (List.mem_cons_self y ys)
    have hys : ∀ z ∈ ys, (z == x) = false := fun z hz => h z (List.mem_cons_of_mem _ hz)
    simp [jsIndexOf, hy, ih hys]

/-! ### Helper lemmas about the modelled document store -/

theorem find?_replaceFirstPost {store : List Post} {pid : String} {p p2 : Post}
    (h : store.find? (fun q => q.id == pid) = some p) (h2 : (p2.id == pid) = true) :
    (replaceFirstPost store pid p2).find? (fun q => q.id == pid) = some p2 := by
  induction store with
  | nil => simp at h
  | cons q qs ih =>
    cases hq : (q.id == pid) with
    | true => simp [replaceFirstPost, hq, List.find?_cons, h2]
    | false =>
      simp only [List.find?_cons, hq] at h
      simp [replaceFirstPost, hq, List.find?_cons]
      exact ih h

theorem mem_replaceFirstPost {store : List Post} {pid : String} {p2 q : Post}
    (h : q ∈ replaceFirstPost store pid p2) : q ∈ store ∨ q = p2 := by
  induction store with
  | nil => simp [replaceFirstPost] at h
  | cons r rs ih =>
    cases hr : (r.id == pid) with
    | true =>
      simp only [replaceFirstPost, hr] at h
      simp only [if_true, List.mem_cons] at h
      rcases h with h | h
      · right; exact h
      · left; exact List.mem_cons_of_mem _ h
    | false =>
      simp [replaceFirstPost, hr] at h
      rcases h with h | h
      · left; simp [h]
      · rcases ih h with h2 | h2
        · left; exact List.mem_cons_of_mem _ h2
        · right; exact h2

theorem mem_removeFirstPost {store : List Post} {pid : String} {q : Post}
    (h : q ∈ removeFirstPost store pid) : q ∈ store := by
  induction store with
  | nil => simp [removeFirstPost] at h
  | cons r rs ih =>
    cases hr : (r.id == pid) with
    | true =>
      simp only [removeFirstPost, hr, if_true] at h
      exact List.mem_cons_of_mem _ h
    | false =>
      simp [removeFirstPost, hr] at h
      rcases h with h | h
      · simp [h]
      · exact List.mem_cons_of_mem _ (ih h)

theorem find?_saveProfile {store : List Profile} {uid : String} {p p2 : Profile}
    (h : findProfileByUser store uid = some p) (h2 : (p2.user == uid) = true) :
    findProfileByUser (saveProfile store uid p2) uid = some p2 := by
  induction store with
  | nil => simp [findProfileByUser] at h
  | cons q qs ih =>
    cases hq : (q.user == uid) with
    | true => simp [findProfileByUser, saveProfile, hq, List.find?_cons, h2]
    | false =>
      rw [findProfileByUser] at h ih ⊢
      simp only [List.find?_cons, hq] at h
      simp [saveProfile, hq, List.find?_cons]
      exact ih h

theorem saveProfile_self {store : List Profile} {uid : String} {p : Profile}
    (h : findProfileByUser store uid = some p) : saveProfile store uid p = store := by
  induction store with
  | nil => rfl
  | cons q qs ih =>
    rw [findProfileByUser] at h ih
    cases hq : (q.user == uid) with
    | true =>
      simp only [List.find?_cons, hq] at h
      simp only [Option.some_inj] at h
      subst h
      simp [saveProfile, hq]
    | false =>
      simp only [List.find?_cons, hq] at h
      simp [saveProfile, hq]
      exact ih h

theorem saveProfile_saveProfile {store : List Profile} {uid : String} {p2 p3 : Profile}
    (h2 : (p2.user == uid) = true) :
    saveProfile (saveProfile store uid p2) uid p3 = saveProfile store uid p3 := by
  induction store with
  | nil => rfl
  | cons q qs ih =>
    cases hq : (q.user == uid) with
    | true => simp [saveProfile, hq, h2]
    | false =>
      simp [saveProfile, hq]
      exact ih

theorem findPostById_ok_some {store : List Post} {pid : String} {post : Post}
    (h : findPostById store pid = Except.ok (some post)) :
    isValidObjectId pid = true
    ∧ store.find? (fun p => p.id == pid) = some post
    ∧ (post.id == pid) = true := by
  cases hv : isValidObjectId pid with
  | true =>
    simp only [findPostById, hv] at h
    simp at h
    refine ⟨rfl, h, ?_⟩
    have h2 := List.find?_some h
    simpa using h2
  | false =>
    simp [findPostById, hv] at h

theorem findPostById_eq_ok {store : List Post} {pid : String}
    (hv : isValidObjectId pid = true) :
    findPostById store pid = Except.ok (store.find? (fun p => p.id == pid)) := by
  simp [findPostById, hv]

theorem likesInvariant_replaceFirst {store : List Post} {pid : String} {p2 : Post}
    (h : likesInvariant store) (h2 : (p2.likes.map LikeEntry.user).Nodup) :
    likesInvariant (replaceFirstPost store pid p2) := by
  intro q hq
  rcases mem_replaceFirstPost hq with hmem | hEq
  · exact h q hmem
  · rw [hEq]; exact h2

/-! ### Settling the claims -/

/-- Claim C1 (code bug, evaluated at the failing input): the handler of
DELETE comment locates and authorizes the comment identified by
`comment_id`, but then computes the removal index from the comment AUTHORS
(`map(c => c.user).indexOf(req.user.id)`).  Here `u1` asks to delete the
comment with id `c2` of a post holding comments `c1`, `c2`, both authored by
`u1`; the handler removes `c1` and leaves the identified comment `c2` in
place, contrary to the specified behavior (and to the handler's own stated
intent of removing the found comment). -/
theorem removeComment_deletes_first_authored_comment :
    removeComment [postTwoComments] "aaaaaaaaaaaaaaaaaaaaaaaa" "c2" "u1" =
      ([{ postTwoComments with comments :=
            [{ id := "c2", text := "second", name := "Al", avatar := "av", user := "u1" }] }],
       Resp.okComments
         [{ id := "c2", text := "second", name := "Al", avatar := "av", user := "u1" }]) := by
  rfl

/-- Claim C2 (confirmed): for identities A ≠ B, `deletePost` invoked by B on
A's post and `removeComment` invoked by B on A's comment both answer 401
Unauthorized — an outcome distinct from the 404 NotFound responses — and
leave the store, hence the post with its likes and comments, unchanged. -/
theorem ownership_forbidden_unchanged {store : List Post} {pid cid uidA uidB : String}
    {post : Post} {comment : CommentEntry}
    (hAB : uidA ≠ uidB)
    (hfind : findPostById store pid = Except.ok (some post))
    (howner : post.user = uidA)
    (hcfind : post.comments.find? (fun c => c.id == cid) = some comment)
    (hcauthor : comment.user = uidA) :
    deletePost store pid uidB = (store, Resp.unauthorized "User not authorized")
    ∧ removeComment store pid cid uidB = (store, Resp.unauthorized "User not authorized")
    ∧ Resp.unauthorized "User not authorized" ≠ Resp.notFound "Post not found"
    ∧ Resp.unauthorized "User not authorized" ≠ Resp.notFound "Comment does not exist" := by
  have hb : (post.user != uidB) = true := by
    rw [howner]; exact bne_iff_ne.mpr hAB
  have hcb : (comment.user != uidB) = true := by
    rw [hcauthor]; exact bne_iff_ne.mpr hAB
  refine ⟨?_, ?_, by decide, by decide⟩
  · simp [deletePost, hfind, hb]
  · simp [removeComment, hfind, hcfind, hcb]

/-- Witness for C2 at a concrete store: owner and author `u1`, requester `u2`. -/
theorem ownership_forbidden_unchanged_witness :
    deletePost [postOwned] "bbbbbbbbbbbbbbbbbbbbbbbb" "u2"
      = ([postOwned], Resp.unauthorized "User not authorized")
    ∧ removeComment [postOwned] "bbbbbbbbbbbbbbbbbbbbbbbb" "c1" "u2"
      = ([postOwned], Resp.unauthorized "User not authorized")
    ∧ Resp.unauthorized "User not authorized" ≠ Resp.notFound "Post not found"
    ∧ Resp.unauthorized "User not authorized" ≠ Resp.notFound "Comment does not exist" :=
  @ownership_forbidden_unchanged [postOwned] "bbbbbbbbbbbbbbbbbbbbbbbb" "c1" "u1" "u2"
    postOwned { id := "c1", text := "yo", name := "Al", avatar := "av", user := "u1" }
    (by decide) (by rfl) (by rfl) (by rfl) (by rfl)

/-- Claim C4 counterexample: with an empty store and a well-formed post id
matching no document, `like`, `unlike` and `removeComment` answer the 500
server error — not a NotFound outcome — refuting the claim. -/
theorem missing_post_not_notFound_cex :
    likePost [] "dddddddddddddddddddddddd" "u2" = ([], Resp.serverError)
    ∧ (likePost [] "dddddddddddddddddddddddd" "u2").2.isNotFound = false
    ∧ unlikePost [] "dddddddddddddddddddddddd" "u2" = ([], Resp.serverError)
    ∧ removeComment [] "dddddddddddddddddddddddd" "c9" "u2" = ([], Resp.serverError) :=
  ⟨rfl, rfl, rfl, rfl⟩

/-- Claim C4 amended: for a well-formed post id that matches no document,
`like`, `unlike` and `removeComment` each answer the server-error outcome
(the missing null check makes the handler raise into its catch branch) and
leave the store unchanged. -/
theorem missing_post_mutations_server_error {store : List Post} {pid uid cid : String}
    (h : findPostById store pid = Except.ok none) :
    likePost store pid uid = (store, Resp.serverError)
    ∧ unlikePost store pid uid = (store, Resp.serverError)
    ∧ removeComment store pid cid uid = (store, Resp.serverError) := by
  refine ⟨?_, ?_, ?_⟩ <;> simp [likePost, unlikePost, removeComment, h]

/-- Witness for the amended C4 at an empty store. -/
theorem missing_post_mutations_server_error_witness :
    likePost [] "eeeeeeeeeeeeeeeeeeeeeeee" "u2" = ([], Resp.serverError)
    ∧ unlikePost [] "eeeeeeeeeeeeeeeeeeeeeeee" "u2" = ([], Resp.serverError)
    ∧ removeComment [] "eeeeeeeeeeeeeeeeeeeeeeee" "c9" "u2" = ([], Resp.serverError) :=
  missing_post_mutations_server_error (by rfl)

/-- Claim C5 counterexample: removing an absent experience id from a profile
whose experience is `[expOne, expTwo]` is not a no-op — `indexOf` yields -1
and `splice(-1, 1)` removes the LAST entry, so the persisted sequence is
`[expOne]`, not the prior sequence. -/
theorem removeExperience_absent_id_cex :
    removeExperience [profBase] "u1" "nope"
      = ([{ profBase with experience := [expOne] }],
         Resp.okProfile { profBase with experience := [expOne] })
    ∧ [expOne] ≠ profBase.experience :=
  ⟨rfl, by decide⟩

/-- Claim C5 amended: with an entry id absent from the experience sequence
the handler still persists and returns the profile, but with the LAST
experience entry removed (`dropLast`); only an already-empty sequence is
left unchanged. -/
theorem removeExperience_absent_removes_last {store : List Profile} {uid expId : String}
    {p : Profile} (h : findProfileByUser store uid = some p)
    (habs : ∀ e ∈ p.experience, (e.id == expId) = false) :
    removeExperience store uid expId =
      (saveProfile store uid { p with experience := p.experience.dropLast },
       Resp.okProfile { p with experience := p.experience.dropLast }) := by
  have hidx : jsIndexOf (p.experience.map (fun it => it.id)) expId = -1 := by
    apply jsIndexOf_eq_neg_one
    intro y hy
    rcases List.mem_map.mp hy with ⟨e2, he2, hye⟩
    rw [← hye]
    exact habs e2 he2
  simp [removeExperience, h, hidx, spliceOne_neg_one]

/-- Witness for the amended C5 at the concrete two-entry profile. -/
theorem removeExperience_absent_removes_last_witness :
    removeExperience [profBase] "u1" "gone"
      = (saveProfile [profBase] "u1" { profBase with experience := profBase.experience.dropLast },
         Resp.okProfile { profBase with experience := profBase.experience.dropLast }) :=
  removeExperience_absent_removes_last (by rfl) (by decide)

/-- Claim C6 counterexample: with no profile document for the caller,
`addExperience` answers the 500 server error (missing null check), not a
NotFound outcome, refuting the claim; nothing is persisted. -/
theorem addExperience_no_profile_cex :
    addExperience [] "u1" expNew = ([], Resp.serverError)
    ∧ (addExperience [] "u1" expNew).2.isNotFound = false :=
  ⟨rfl, rfl⟩

/-- Claim C6 amended: when the caller has no profile document,
`addExperience` answers the server-error outcome and persists nothing. -/
theorem addExperience_no_profile_server_error {store : List Profile} {uid : String}
    (e : Experience) (h : findProfileByUser store uid = none) :
    addExperience store uid e = (store, Resp.serverError) := by
  simp [addExperience, h]

/-- Witness for the amended C6 at an empty profile store. -/
theorem addExperience_no_profile_server_error_witness :
    addExperience [] "u2" expNew = ([], Resp.serverError) :=
  addExperience_no_profile_server_error expNew (by rfl)

/-- Claim C7 counterexample: for `like`, a malformed id is NOT normalized to
NotFound — it answers the 500 server error — and that outcome coincides with
the outcome for a well-formed id matching no document, so the two cases are
not distinct either. -/
theorem malformed_id_cex :
    likePost [] "xy" "u1" = ([], Resp.serverError)
    ∧ (likePost [] "xy" "u1").2.isNotFound = false
    ∧ likePost [] "ffffffffffffffffffffffff" "u1" = ([], Resp.serverError) :=
  ⟨rfl, rfl, rfl⟩

/-- Claim C7 amended: only `deletePost` normalizes a malformed id, and it
does so to the SAME NotFound outcome as a well-formed id matching no
document (the two cases are not caller-distinguishable); `like`, `unlike`
and `removeComment` answer the same 500 server error in both cases. -/
theorem malformed_id_outcomes {store : List Post} {pid pid2 uid cid : String}
    (h : isValidObjectId pid = false) (h2 : findPostById store pid2 = Except.ok none) :
    deletePost store pid uid = (store, Resp.notFound "Post not found")
    ∧ likePost store pid uid = (store, Resp.serverError)
    ∧ unlikePost store pid uid = (store, Resp.serverError)
    ∧ removeComment store pid cid uid = (store, Resp.serverError)
    ∧ deletePost store pid2 uid = (store, Resp.notFound "Post not found")
    ∧ likePost store pid2 uid = (store, Resp.serverError)
    ∧ unlikePost store pid2 uid = (store, Resp.serverError)
    ∧ removeComment store pid2 cid uid = (store, Resp.serverError) := by
  have hf : findPostById store pid = Except.error () := by simp [findPostById, h]
  refine ⟨?_, ?_, ?_, ?_, ?_, ?_, ?_, ?_⟩ <;>
    simp [deletePost, likePost, unlikePost, removeComment, hf, h2]

/-- Witness for the amended C7: malformed id `xy` versus a well-formed
absent id, on the empty store. -/
theorem malformed_id_outcomes_witness :
    deletePost [] "xy" "u3" = ([], Resp.notFound "Post not found")
    ∧ likePost [] "xy" "u3" = ([], Resp.serverError)
    ∧ unlikePost [] "xy" "u3" = ([], Resp.serverError)
    ∧ removeComment [] "xy" "c1" "u3" = ([], Resp.serverError)
    ∧ deletePost [] "999999999999999999999999" "u3" = ([], Resp.notFound "Post not found")
    ∧ likePost [] "999999999999999999999999" "u3" = ([], Resp.serverError)
    ∧ unlikePost [] "999999999999999999999999" "u3" = ([], Resp.serverError)
    ∧ removeComment [] "999999999999999999999999" "c1" "u3" = ([], Resp.serverError) :=
  malformed_id_outcomes (by rfl) (by rfl)

/-- Claim C3 (confirmed): every post mutation — like, unlike, addComment,
removeComment, deletePost — preserves the at-most-one-like-per-user
invariant of every stored post, and a second like by the same identity on
the same post is answered with the AlreadyLiked conflict (400, an outcome
distinct from the 500 server error) while the store — and so the size of
`likes` — stays unchanged. -/
theorem likes_unique_preserved {users : List UserRec} {store : List Post}
    {pid uid text cid : String}
    (h : likesInvariant store) :
    likesInvariant (likePost store pid uid).1
    ∧ likesInvariant (unlikePost store pid uid).1
    ∧ likesInvariant (addComment users store pid uid text cid).1
    ∧ likesInvariant (removeComment store pid cid uid).1
    ∧ likesInvariant (deletePost store pid uid).1
    ∧ secondLikeConflict store pid uid
    ∧ Resp.badRequest "Post already liked" ≠ Resp.serverError := by
  refine ⟨?_, ?_, ?_, ?_, ?_, ?_, by decide⟩
  · cases hf : findPostById store pid with
    | error e => simpa [likePost, hf] using h
    | ok o =>
      cases o with
      | none => simpa [likePost, hf] using h
      | some post =>
        obtain ⟨hv, hfind, hpid⟩ := findPostById_ok_some hf
        have hpmem : post ∈ store := List.mem_of_find?_eq_some hfind
        by_cases hl : (post.likes.filter (fun l => l.user == uid)).length > 0
        · simpa [likePost, hf, hl] using h
        · have hnil : post.likes.filter (fun l => l.user == uid) = [] :=
            List.length_eq_zero.mp (Nat.eq_zero_of_not_pos hl)
          have hnotmem : uid ∉ post.likes.map LikeEntry.user := by
            intro hm
            rcases List.mem_map.mp hm with ⟨l, hlmem, hlu⟩
            have hfalse := List.filter_eq_nil_iff.mp hnil l hlmem
            exact hfalse (by simp [hlu])
          simp only [likePost, hf]
          simp [hl]
          apply likesInvariant_replaceFirst h
          simp only [List.map_cons]
          exact List.nodup_cons.mpr ⟨hnotmem, h post hpmem⟩
  · cases hf : findPostById store pid with
    | error e => simpa [unlikePost, hf] using h
    | ok o =>
      cases o with
      | none => simpa [unlikePost, hf] using h
      | some post =>
        obtain ⟨hv, hfind, hpid⟩ := findPostById_ok_some hf
        have hpmem : post ∈ store := List.mem_of_find?_eq_some hfind
        cases hz : ((post.likes.filter (fun l => l.user == uid)).length == 0) with
        | true => simpa [unlikePost, hf, hz] using h
        | false =>
          simp [unlikePost, hf, hz]
          apply likesInvariant_replaceFirst h
          exact List.Nodup.sublist
            (List.Sublist.map _ (spliceOne_sublist post.likes _)) (h post hpmem)
  · cases hu : findUserById users uid with
    | error e => simpa [addComment, hu] using h
    | ok ou =>
      cases ou with
      | none => simpa [addComment, hu] using h
      | some user =>
        cases hf : findPostById store pid with
        | error e => simpa [addComment, hu, hf] using h
        | ok o =>
          cases o with
          | none => simpa [addComment, hu, hf] using h
          | some post =>
            obtain ⟨hv, hfind, hpid⟩ := findPostById_ok_some hf
            have hpmem : post ∈ store := List.mem_of_find?_eq_some hfind
            simp [addComment, hu, hf]
            apply likesInvariant_replaceFirst h
            exact h post hpmem
  · cases hf : findPostById store pid with
    | error e => simpa [removeComment, hf] using h
    | ok o =>
      cases o with
      | none => simpa [removeComment, hf] using h
      | some post =>
        obtain ⟨hv, hfind, hpid⟩ := findPostById_ok_some hf
        have hpmem : post ∈ store := List.mem_of_find?_eq_some hfind
        cases hc : post.comments.find? (fun c => c.id == cid) with
        | none => simpa [removeComment, hf, hc] using h
        | some comment =>
          cases hb : (comment.user != uid) with
          | true => simpa [removeComment, hf, hc, hb] using h
          | false =>
            simp [removeComment, hf, hc, hb]
            apply likesInvariant_replaceFirst h
            exact h post hpmem
  · cases hf : findPostById store pid with
    | error e => simpa [deletePost, hf] using h
    | ok o =>
      cases o with
      | none => simpa [deletePost, hf] using h
      | some post =>
        cases hb : (post.user != uid) with
        | true => simpa [deletePost, hf, hb] using h
        | false =>
          simp [deletePost, hf, hb]
          intro q hq
          exact h q (mem_removeFirstPost hq)
  · intro s2 ls hlike
    cases hf : findPostById store pid with
    | error e => simp [likePost, hf] at hlike
    | ok o =>
      cases o with
      | none => simp [likePost, hf] at hlike
      | some post =>
        obtain ⟨hv, hfind, hpid⟩ := findPostById_ok_some hf
        by_cases hl : (post.likes.filter (fun l => l.user == uid)).length > 0
        · simp [likePost, hf, hl] at hlike
        · simp only [likePost, hf] at hlike
          simp [hl] at hlike
          obtain ⟨hs2, hls⟩ := hlike
          have hpid2 :
              (({ post with likes := { user := uid } :: post.likes } : Post).id == pid) = true :=
            hpid
          have hfind2 : findPostById s2 pid
              = Except.ok (some { post with likes := { user := uid } :: post.likes }) := by
            rw [← hs2, findPostById_eq_ok hv, find?_replaceFirstPost hfind hpid2]
          simp [likePost, hfind2, List.filter_cons]

/-- Witness for C3 at a one-post store whose post is liked once by `u3`. -/
theorem likes_unique_preserved_witness :
    likesInvariant (likePost [postPlain] "cccccccccccccccccccccccc" "u3").1
    ∧ likesInvariant (unlikePost [postPlain] "cccccccccccccccccccccccc" "u3").1
    ∧ likesInvariant (addComment [{ id := "u3", name := "Cy", avatar := "av" }] [postPlain]
        "cccccccccccccccccccccccc" "u3" "nice" "c7").1
    ∧ likesInvariant (removeComment [postPlain] "cccccccccccccccccccccccc" "c7" "u3").1
    ∧ likesInvariant (deletePost [postPlain] "cccccccccccccccccccccccc" "u3").1
    ∧ secondLikeConflict [postPlain] "cccccccccccccccccccccccc" "u3"
    ∧ Resp.badRequest "Post already liked" ≠ Resp.serverError :=
  likes_unique_preserved (by
    intro p hp
    simp only [List.mem_singleton] at hp
    subst hp
    decide)

/-- Claim C8 (confirmed): `addExperience` of a generated entry followed by
`removeExperience` with that entry's id restores the store — and so the
profile's `experience` field — to exactly its prior ordered sequence: the
`indexOf` search hits the freshly unshifted head entry first. -/
theorem add_remove_experience_roundtrip {store : List Profile} {uid : String}
    {p : Profile} (e : Experience) (h : findProfileByUser store uid = some p) :
    addExperience store uid e
      = (saveProfile store uid { p with experience := e :: p.experience },
         Resp.okProfile { p with experience := e :: p.experience })
    ∧ removeExperience (addExperience store uid e).1 uid e.id
      = (store, Resp.okProfile p) := by
  have h' : List.find? (fun q => q.user == uid) store = some p := h
  have hpu : (p.user == uid) = true := by
    have h2 := List.find?_some h'
    simpa using h2
  have hpu2 : (({ p with experience := e :: p.experience } : Profile).user == uid) = true := hpu
  have hadd : addExperience store uid e
      = (saveProfile store uid { p with experience := e :: p.experience },
         Resp.okProfile { p with experience := e :: p.experience }) := by
    simp [addExperience, h]
  refine ⟨hadd, ?_⟩
  rw [hadd]
  have h2 : findProfileByUser
      (saveProfile store uid { p with experience := e :: p.experience }) uid
      = some { p with experience := e :: p.experience } :=
    find?_saveProfile h hpu2
  simp only [removeExperience, h2]
  simp only [List.map_cons, jsIndexOf_cons_self, spliceOne_zero]
  rw [saveProfile_saveProfile hpu2]
  show (saveProfile store uid p, Resp.okProfile p) = (store, Resp.okProfile p)
  rw [saveProfile_self h]

/-- Witness for C8: add a fresh entry to the two-entry profile and remove it
again by its generated id. -/
theorem add_remove_experience_roundtrip_witness :
    addExperience [profBase] "u1" expNew
      = (saveProfile [profBase] "u1" { profBase with experience := expNew :: profBase.experience },
         Resp.okProfile { profBase with experience := expNew :: profBase.experience })
    ∧ removeExperience (addExperience [profBase] "u1" expNew).1 "u1" expNew.id
      = ([profBase], Resp.okProfile profBase) :=
  add_remove_experience_roundtrip expNew (by rfl)

/-- Claim C9 (confirmed): on an existing profile, a second upsert with a
field set disjoint from the first leaves every top-level field supplied only
by the first call at its first-call value, while the `social` sub-mapping is
rebuilt from only the platform keys supplied in the second call, so social
keys omitted in the second call vanish. -/
theorem upsert_twice_disjoint {store : List Profile} {uid : String} {r1 r2 : UpsertReq}
    {p0 : Profile} (h0 : findProfileByUser store uid = some p0)
    (hd : disjointFields r1 r2) :
    findProfileByUser (upsertProfile (upsertProfile store uid r1).1 uid r2).1 uid
      = some (applyUpsert (applyUpsert p0 r1 uid) r2 uid)
    ∧ (truthy r1.company = true →
        (applyUpsert (applyUpsert p0 r1 uid) r2 uid).company
          = (applyUpsert p0 r1 uid).company)
    ∧ (truthy r1.website = true →
        (applyUpsert (applyUpsert p0 r1 uid) r2 uid).website
          = (applyUpsert p0 r1 uid).website)
    ∧ (truthy r1.location = true →
        (applyUpsert (applyUpsert p0 r1 uid) r2 uid).location
          = (applyUpsert p0 r1 uid).location)
    ∧ (truthy r1.bio = true →
        (applyUpsert (applyUpsert p0 r1 uid) r2 uid).bio
          = (applyUpsert p0 r1 uid).bio)
    ∧ (truthy r1.status = true →
        (applyUpsert (applyUpsert p0 r1 uid) r2 uid).status
          = (applyUpsert p0 r1 uid).status)
    ∧ (truthy r1.githubusername = true →
        (applyUpsert (applyUpsert p0 r1 uid) r2 uid).githubusername
          = (applyUpsert p0 r1 uid).githubusername)
    ∧ (truthy r1.skills = true →
        (applyUpsert (applyUpsert p0 r1 uid) r2 uid).skills
          = (applyUpsert p0 r1 uid).skills)
    ∧ (applyUpsert (applyUpsert p0 r1 uid) r2 uid).social = buildSocial r2
    ∧ (truthy r2.youtube = false →
        (applyUpsert (applyUpsert p0 r1 uid) r2 uid).social.youtube = none)
    ∧ (truthy r2.facebook = false →
        (applyUpsert (applyUpsert p0 r1 uid) r2 uid).social.facebook = none)
    ∧ (truthy r2.twitter = false →
        (applyUpsert (applyUpsert p0 r1 uid) r2 uid).social.twitter = none)
    ∧ (truthy r2.instagram = false →
        (applyUpsert (applyUpsert p0 r1 uid) r2 uid).social.instagram = none)
    ∧ (truthy r2.linkedin = false →
        (applyUpsert (applyUpsert p0 r1 uid) r2 uid).social.linkedin = none) := by
  obtain ⟨hdc, hdw, hdl, hdb, hds, hdg, hdk, _, _, _, _, _⟩ := hd
  have huser : ((applyUpsert p0 r1 uid).user == uid) = true := by
    simp [applyUpsert]
  have hs1 : (upsertProfile store uid r1).1
      = saveProfile store uid (applyUpsert p0 r1 uid) := by
    simp [upsertProfile, h0]
  have hfind1 : findProfileByUser (saveProfile store uid (applyUpsert p0 r1 uid)) uid
      = some (applyUpsert p0 r1 uid) := find?_saveProfile h0 huser
  refine ⟨?_, ?_, ?_, ?_, ?_, ?_, ?_, ?_, rfl, ?_, ?_, ?_, ?_, ?_⟩
  · rw [hs1]
    have hs2 : (upsertProfile (saveProfile store uid (applyUpsert p0 r1 uid)) uid r2).1
        = saveProfile (saveProfile store uid (applyUpsert p0 r1 uid)) uid
            (applyUpsert (applyUpsert p0 r1 uid) r2 uid) := by
      simp [upsertProfile, hfind1]
    rw [hs2]
    have huser2 : ((applyUpsert (applyUpsert p0 r1 uid) r2 uid).user == uid) = true := by
      simp [applyUpsert]
    exact find?_saveProfile hfind1 huser2
  · intro h1; simp [applyUpsert, hdc h1]
  · intro h1; simp [applyUpsert, hdw h1]
  · intro h1; simp [applyUpsert, hdl h1]
  · intro h1; simp [applyUpsert, hdb h1]
  · intro h1; simp [applyUpsert, hds h1]
  · intro h1; simp [applyUpsert, hdg h1]
  · intro h1; simp [applyUpsert, hdk h1]
  · intro h2; simp [applyUpsert, buildSocial, keepTruthy, h2]
  · intro h2; simp [applyUpsert, buildSocial, keepTruthy, h2]
  · intro h2; simp [applyUpsert, buildSocial, keepTruthy, h2]
  · intro h2; simp [applyUpsert, buildSocial, keepTruthy, h2]
  · intro h2; simp [applyUpsert, buildSocial, keepTruthy, h2]

/-- Witness for C9: first call supplies company and a youtube link, second
call supplies website and twitter; company keeps its first-call value, the
social mapping equals the one rebuilt from the second call only, and the
youtube key has vanished. -/
theorem upsert_twice_disjoint_witness :
    findProfileByUser (upsertProfile (upsertProfile [profBase] "u1" reqOne).1 "u1" reqTwo).1 "u1"
      = some (applyUpsert (applyUpsert profBase reqOne "u1") reqTwo "u1")
    ∧ (applyUpsert (applyUpsert profBase reqOne "u1") reqTwo "u1").company
      = (applyUpsert profBase reqOne "u1").company
    ∧ (applyUpsert (applyUpsert profBase reqOne "u1") reqTwo "u1").social = buildSocial reqTwo
    ∧ (applyUpsert (applyUpsert profBase reqOne "u1") reqTwo "u1").social.youtube = none := by
  have hw := @upsert_twice_disjoint [profBase] "u1" reqOne reqTwo profBase (by rfl)
    (by unfold disjointFields; decide)
  exact ⟨hw.1, hw.2.1 rfl, hw.2.2.2.2.2.2.2.2.1, hw.2.2.2.2.2.2.2.2.2.1 rfl⟩

/-- Claim C10 (confirmed): a top-level field supplied as the empty string
(falsy in JavaScript) is treated exactly as an omitted field — the whole
upsert outcome is identical — so an existing stored value cannot be cleared
or overwritten by supplying an empty value. -/
theorem upsert_blank_as_omitted {store : List Profile} {uid : String} {p0 : Profile}
    (r : UpsertReq) (h0 : findProfileByUser store uid = some p0) :
    upsertProfile store uid { r with company := some "" }
      = upsertProfile store uid { r with company := none }
    ∧ upsertProfile store uid { r with website := some "" }
      = upsertProfile store uid { r with website := none }
    ∧ upsertProfile store uid { r with location := some "" }
      = upsertProfile store uid { r with location := none }
    ∧ upsertProfile store uid { r with bio := some "" }
      = upsertProfile store uid { r with bio := none }
    ∧ upsertProfile store uid { r with status := some "" }
      = upsertProfile store uid { r with status := none }
    ∧ upsertProfile store uid { r with githubusername := some "" }
      = upsertProfile store uid { r with githubusername := none }
    ∧ upsertProfile store uid { r with skills := some "" }
      = upsertProfile store uid { r with skills := none }
    ∧ (applyUpsert p0 { r with company := some "" } uid).company = p0.company := by
  have hb : truthy (some "") = false := rfl
  have hn : truthy none = false := rfl
  have lift : ∀ rA rB : UpsertReq, applyUpsert p0 rA uid = applyUpsert p0 rB uid →
      upsertProfile store uid rA = upsertProfile store uid rB := by
    intro rA rB hE
    simp [upsertProfile, h0, hE]
  refine ⟨lift _ _ ?_, lift _ _ ?_, lift _ _ ?_, lift _ _ ?_, lift _ _ ?_, lift _ _ ?_,
    lift _ _ ?_, ?_⟩ <;>
    simp [applyUpsert, buildSocial, keepTruthy, hb, hn]

/-- Witness for C10: on the concrete profile, supplying an empty company
equals omitting it, and the stored company value is untouched. -/
theorem upsert_blank_as_omitted_witness :
    upsertProfile [profBase] "u1" { reqEmpty with company := some "" }
      = upsertProfile [profBase] "u1" { reqEmpty with company := none }
    ∧ (applyUpsert profBase { reqEmpty with company := some "" } "u1").company
      = profBase.company := by
  have hw := @upsert_blank_as_omitted [profBase] "u1" profBase reqEmpty (by rfl)
  exact ⟨hw.1, hw.2.2.2.2.2.2.2⟩

end DevConnector
